import Mathlib

/-!
Verification of the MAST unit observatory code: a shallow embedding of
`stage.py`, `Unit.py`, `src/mount.py` and `src/focuser.py`, with one theorem
per specification claim.

Time is modelled in whole seconds (the code computes elapsed time with
`timedelta.seconds`); positions are integer tick counts (Python ints).
-/

/-- Stage device states (stage.py, `StageState`).  `Science` and `Guiding`
are aliases of `In` and `Out` (the Python Enum gives them identical
underlying values, so they are the same member at runtime). -/
inductive StageState where
  | Idle
  | In
  | Out
  | MovingIn
  | MovingOut
  | Error
deriving DecidableEq, Repr

/-- Alias member: `StageState.Science = StageState.In` (stage.py line 56). -/
def StageState.Science : StageState := StageState.In

/-- Alias member: `StageState.Guiding = StageState.Out` (stage.py line 57). -/
def StageState.Guiding : StageState := StageState.Out

/-- The stage's activity flags (stage.py, `StageActivities`): `Moving`,
`StaringUp` (spelled so in the source) and `ShuttingDown`. -/
inductive StageActivity where
  | Moving
  | StaringUp
  | ShuttingDown
deriving DecidableEq, Repr

/-- Modelled from the spec: the activity bitset kept by `utils.Activities`
(`utils.py` is not under src/).  Spec section 4.1: `start(flag)` sets the
flag, `end(flag)` clears the flag, `is_active(flag)` tests it; flags are
independent bits that may be concurrently set. -/
structure StageActs where
  moving : Bool
  staringUp : Bool
  shuttingDown : Bool
deriving DecidableEq, Repr

/-- Set one activity bit (spec section 4.1, `start(flag)`). -/
def StageActs.set (a : StageActs) : StageActivity → StageActs
  | .Moving => { a with moving := true }
  | .StaringUp => { a with staringUp := true }
  | .ShuttingDown => { a with shuttingDown := true }

/-- Clear one activity bit (spec section 4.1, `end(flag)`). -/
def StageActs.clear (a : StageActs) : StageActivity → StageActs
  | .Moving => { a with moving := false }
  | .StaringUp => { a with staringUp := false }
  | .ShuttingDown => { a with shuttingDown := false }

/-- Test one activity bit (spec section 4.1, `is_active(flag)`). -/
def StageActs.test (a : StageActs) : StageActivity → Bool
  | .Moving => a.moving
  | .StaringUp => a.staringUp
  | .ShuttingDown => a.shuttingDown

/-- The mutable state of a `Stage` object (stage.py, class `Stage`), plus the
state of its power socket.  `powered` models `Power.is_on(SocketId('Stage'))`
(`power.py` is not under src/; modelled from the spec's PowerGate: a named
socket that is either On or Off). -/
structure StageM where
  powered : Bool
  _connected : Bool
  state : StageState
  _position : Int
  acts : StageActs
  ticks_at_start : Int
  motion_start_time : Nat
deriving DecidableEq, Repr

namespace Stage

def MIN_TICKS : Int := 0
def MAX_TICKS : Int := 50000
def TICKS_WHEN_IN : Int := 100
def TICKS_WHEN_OUT : Int := 30000
def TICKS_PER_SECOND : Int := 1000

/-- Embeds the `position` setter (stage.py lines 177-180): the write is
silently ignored unless the stage is connected. -/
def setPosition (s : StageM) (value : Int) : StageM :=
  if s._connected then { s with _position := value } else s

/-- Embeds the `connected` setter (stage.py lines 96-117): returns
immediately when not powered; on `value = True` sets the state to `In` and
writes `TICKS_WHEN_IN` through the `position` setter (the `try` body contains
no fallible call in the source, so the `except` branch is unreachable);
finally stores `_connected = value`. -/
def setConnected (s : StageM) (value : Bool) : StageM :=
  if !s.powered then s
  else
    let s1 := if value then setPosition { s with state := StageState.In } TICKS_WHEN_IN else s
    { s1 with _connected := value }

/-- Embeds `connect` (stage.py lines 119-127). -/
def connect (s : StageM) : StageM :=
  if s.powered then setConnected s true else s

/-- Embeds `disconnect` (stage.py lines 129-137). -/
def disconnect (s : StageM) : StageM :=
  if s.powered then setConnected s false else s

/-- Embeds `move` (stage.py lines 237-257); `now` is the current time in
seconds (`datetime.datetime.now()`).  The string-argument branch is not
modelled (callers in src/ pass enum members). -/
def move (s : StageM) (now : Nat) (target : StageState) : StageM :=
  if !s._connected then s
  else if s.state = target then s
  else
    let s1 := { s with acts := s.acts.set .Moving }
    { s1 with
      state := if target = StageState.In then StageState.MovingIn else StageState.MovingOut
      ticks_at_start := s1._position
      motion_start_time := now }

/-- Embeds `startup` (stage.py lines 139-155): power on if needed, connect if
needed, and unless the state is already `Science` start `StaringUp` and move
to `Science`. -/
def startup (s : StageM) (now : Nat) : StageM :=
  let s1 := if !s.powered then { s with powered := true } else s
  let s2 := if !s1._connected then connect s1 else s1
  if s2.state ≠ StageState.Science then
    move { s2 with acts := s2.acts.set .StaringUp } now StageState.Science
  else s2

/-- Embeds `shutdown` (stage.py lines 157-171): no-op when not powered;
otherwise start `ShuttingDown` and move to `Guiding` unless already there,
then disconnect, then power the socket off. -/
def shutdown (s : StageM) (now : Nat) : StageM :=
  if !s.powered then s
  else
    let s1 :=
      if s.state ≠ StageState.Guiding then
        move { s with acts := s.acts.set .ShuttingDown } now StageState.Guiding
      else s
    let s2 := disconnect s1
    { s2 with powered := false }

/-- The interpolation step of `ontimer` (stage.py lines 216-228), given the
elapsed whole seconds `dt`: if the state is `MovingOut`, the position grows
from `ticks_at_start` and clamps at `TICKS_WHEN_OUT` on a strictly-greater
test (reaching the clamp value exactly does not transition); in every other
state it shrinks and clamps at `TICKS_WHEN_IN` on a less-or-equal test.
Returns the possibly-transitioned state and the computed position. -/
def ontimerInterp (s : StageM) (dt : Int) : StageM × Int :=
  if s.state = StageState.MovingOut then
    let p := s.ticks_at_start + dt * TICKS_PER_SECOND
    if p > TICKS_WHEN_OUT then
      ({ s with state := StageState.Out, acts := s.acts.clear .Moving }, TICKS_WHEN_OUT)
    else (s, p)
  else
    let p := s.ticks_at_start - dt * TICKS_PER_SECOND
    if p ≤ TICKS_WHEN_IN then
      ({ s with state := StageState.In, acts := s.acts.clear .Moving }, TICKS_WHEN_IN)
    else (s, p)

/-- The activity-ending epilogue of `ontimer` (stage.py lines 231-234): end
`StaringUp` when the state is `In`, end `ShuttingDown` when it is `Out`. -/
def ontimerEnds (s : StageM) : StageM :=
  let s2 :=
    if s.acts.test .StaringUp = true ∧ s.state = StageState.In then
      { s with acts := s.acts.clear .StaringUp }
    else s
  if s2.acts.test .ShuttingDown = true ∧ s2.state = StageState.Out then
    { s2 with acts := s2.acts.clear .ShuttingDown }
  else s2

/-- Embeds `ontimer` (stage.py lines 211-235), the reconciliation tick, at
time `now` (seconds).  Returns immediately when not connected; while `Moving`
is active it interpolates the position (`ontimerInterp`), writes it through
the `position` setter, and ends completed activities (`ontimerEnds`). -/
def ontimer (s : StageM) (now : Nat) : StageM :=
  if !s._connected then s
  else if s.acts.test .Moving then
    let step := ontimerInterp s (Int.ofNat (now - s.motion_start_time))
    ontimerEnds (setPosition step.1 step.2)
  else s

/-- Python `str()` of a `StageState` member, as it appears inside the
f-string of stage.py line 196 (aliases print as their canonical member). -/
def stateStr : StageState → String
  | .Idle => "StageState.Idle"
  | .In => "StageState.In"
  | .Out => "StageState.Out"
  | .MovingIn => "StageState.MovingIn"
  | .MovingOut => "StageState.MovingOut"
  | .Error => "StageState.Error"

/-- Embeds the `reasons` list built by `Stage.status` (stage.py lines
182-209): when unpowered the list is `['not-powered', 'not-connected']`;
when powered but not connected it is `['not-connected']`; when connected it
names the state unless it is `Science`. -/
def statusReasons (s : StageM) : List String :=
  if s.powered then
    if s._connected then
      if s.state = StageState.Science then []
      else ["state is " ++ stateStr s.state ++ " instead of " ++ stateStr StageState.Science]
    else ["not-connected"]
  else ["not-powered", "not-connected"]

end Stage

/-- The operations a caller can invoke on a `Stage` (its public methods plus
the reconciliation tick), used to quantify over reachable states. -/
inductive StageOp where
  | connect
  | disconnect
  | startup (now : Nat)
  | shutdown (now : Nat)
  | move (now : Nat) (target : StageState)
  | tick (now : Nat)
deriving DecidableEq, Repr

/-- Apply one operation to a stage state. -/
def StageOp.apply (s : StageM) : StageOp → StageM
  | .connect => Stage.connect s
  | .disconnect => Stage.disconnect s
  | .startup now => Stage.startup s now
  | .shutdown now => Stage.shutdown s now
  | .move now target => Stage.move s now target
  | .tick now => Stage.ontimer s now

/-- Run a sequence of operations from a state. -/
def runStage (s : StageM) (ops : List StageOp) : StageM :=
  ops.foldl StageOp.apply s

/-- The state right after `Stage.__init__` (stage.py lines 78-86): state
`Idle`, not connected, position 0 (the class default); the power socket
starts in an arbitrary externally-determined state `p0`. -/
def stageInit (p0 : Bool) : StageM :=
  { powered := p0
    _connected := false
    state := StageState.Idle
    _position := 0
    acts := { moving := false, staringUp := false, shuttingDown := false }
    ticks_at_start := 0
    motion_start_time := 0 }

/-! ## Unit.py: the composite unit status (claim C1)

In `UnitStatus` the five subsystem fields are bare class annotations, never
assigned a default: an instance attribute exists only if `__init__` assigned
it, and reading an unassigned one raises `AttributeError`.  We model each
field as `Option Bool` carrying the subsystem's `is_operational` flag when
the attribute was assigned, and Python attribute reads in the `Except`
monad. -/

/-- Everything `UnitStatus.__init__` reads from the unit `u`: the per-socket
power readings (`u.power.is_on(name)`), each subsystem status's
`is_operational` flag, and the unit-level flags.  `u.power` and the four
subsystem objects themselves are taken as present and non-None (they are
assigned unconditionally in `Unit.__init__`). -/
structure UnitEnv where
  cameraSocketOn : Bool
  stageSocketOn : Bool
  coverSocketOn : Bool
  mountSocketOn : Bool
  powerOperational : Bool
  cameraOperational : Bool
  stageOperational : Bool
  coverOperational : Bool
  mountOperational : Bool
  guiding : Bool
  autofocusing : Bool
  unitConnected : Bool
deriving DecidableEq, Repr

/-- The fields of a constructed `UnitStatus` (Unit.py lines 20-50).  A
subsystem field is `some b` when the attribute was assigned a status document
whose `is_operational` is `b`, and `none` when the attribute was never
assigned (its document is omitted). -/
structure UnitStatusR where
  power : Option Bool
  camera : Option Bool
  stage : Option Bool
  cover : Option Bool
  mount : Option Bool
  is_operational : Bool
  is_guiding : Bool
  is_autofocusing : Bool
  is_connected : Bool
  is_busy : Bool
deriving DecidableEq, Repr

/-- Reading a Python instance attribute: raises `AttributeError` when the
attribute was never assigned (`UnitStatus` only annotates its fields, it
gives them no class-level default). -/
def pyAttr (a : Option Bool) : Except String Bool :=
  match a with
  | some v => Except.ok v
  | none => Except.error "AttributeError"

/-- Embeds `UnitStatus.__init__` (Unit.py lines 28-50): assigns each
subsystem's status document only when its power socket is On, then computes
`is_operational` as the short-circuit conjunction over the clauses
`(self.X is not None and self.X.is_operational)` in source order
power, mount, camera, cover, stage — where reading a never-assigned
attribute raises.  An assigned status object is never `None`, so the
`is not None` test succeeds whenever the read itself succeeds. -/
def UnitStatus.init (e : UnitEnv) : Except String UnitStatusR := do
  let power : Option Bool := some e.powerOperational
  let camera : Option Bool := if e.cameraSocketOn then some e.cameraOperational else none
  let stage : Option Bool := if e.stageSocketOn then some e.stageOperational else none
  let cover : Option Bool := if e.coverSocketOn then some e.coverOperational else none
  let mount : Option Bool := if e.mountSocketOn then some e.mountOperational else none
  let pOk ← pyAttr power
  let isOper ←
    if pOk then do
      let m ← pyAttr mount
      if m then do
        let c ← pyAttr camera
        if c then do
          let cv ← pyAttr cover
          if cv then pyAttr stage
          else pure false
        else pure false
      else pure false
    else pure false
  pure { power := power
         camera := camera
         stage := stage
         cover := cover
         mount := mount
         is_operational := isOper
         is_guiding := e.guiding
         is_autofocusing := e.autofocusing
         is_connected := e.unitConnected
         is_busy := e.autofocusing || e.guiding }

/-! ## src/mount.py: the Mount (claims C5, C6, C8, C9) -/

/-- The result object returned by `common.ascom.ascom_run` (not under src/;
modelled from its use sites: it carries `succeeded`/`failed` and a value,
and does not raise). -/
structure AscomResponse where
  succeeded : Bool
  value : Bool
deriving DecidableEq, Repr

/-- The vendor (PWI4) status snapshot fields the mount reads:
`st.mount.is_connected`, the two axis `is_enabled` flags, `is_slewing` and
`is_tracking`. -/
structure PWMount where
  is_connected : Bool
  axis0_enabled : Bool
  axis1_enabled : Bool
  is_slewing : Bool
  is_tracking : Bool
deriving DecidableEq, Repr

namespace Mount

/-- Embeds the `Mount.connected` getter (mount.py lines 100-108), as a
function of the power-socket reading and of the ASCOM/vendor snapshot.  The
source never consults the power reading: the result depends only on the
ASCOM handle, the ASCOM `Connected` response, and the vendor flags. -/
def connectedGet (power_on : Bool) (ascom_handle : Bool) (resp : AscomResponse)
    (st : PWMount) : Bool :=
  ascom_handle && (resp.succeeded && resp.value) && st.is_connected
    && st.axis0_enabled && st.axis1_enabled

/-- Everything `Mount.why_not_operational` reads (mount.py lines 289-315):
power (`self.is_on()`), `self.detected` (a fresh vendor poll of
`st.mount.is_connected`), the sticky `was_shut_down` flag, the ASCOM handle
and `Connected` response, and the vendor snapshot taken at the top of the
property. -/
structure OperEnv where
  power_on : Bool
  detected : Bool
  was_shut_down : Bool
  ascom_handle : Bool
  resp : AscomResponse
  pw_is_connected : Bool
  axis0_enabled : Bool
  axis1_enabled : Bool
deriving DecidableEq, Repr

/-- Embeds `Mount.why_not_operational` (mount.py lines 289-315): an
`if/elif/elif/else` chain — not powered, else not detected, else shut down,
else the ASCOM and PWI4 sub-checks. -/
def why_not_operational (e : OperEnv) : List String :=
  if !e.power_on then ["mount: not powered"]
  else if !e.detected then ["mount: not detected"]
  else if e.was_shut_down then ["mount: shut down"]
  else
    (if e.ascom_handle then
      (if e.resp.succeeded && !e.resp.value then ["mount: (ASCOM) - not connected"] else [])
     else ["mount: (ASCOM) - no handle"])
    ++ (if !e.pw_is_connected then ["mount: (PWI4) - not connected"]
        else
          (if !e.axis0_enabled then ["mount: (PWI4) - axis0 not enabled"] else [])
          ++ (if !e.axis1_enabled then ["mount: (PWI4) - axis1 not enabled"] else []))

/-- The mount state mutated by `Mount.ontimer`: the four relevant activity
bits (spec section 4.1 bitset, as for the stage), the sticky
`_was_shut_down` flag and the power socket. -/
structure TimerState where
  findingHome : Bool
  startingUp : Bool
  parking : Bool
  shuttingDown : Bool
  was_shut_down : Bool
  powered : Bool
deriving DecidableEq, Repr

/-- Embeds `Mount.ontimer` (mount.py lines 191-208) in the `Except` monad:
the tick first reads `self.connected` (whose getter polls the vendor), then
polls `self.pw.status()` again, then reconciles the `FindingHome` and
`Parking` activities.  There is no `try/except` in the source, so a poll
that raises propagates out of the tick; every mutation comes after both
polls, so an aborted tick leaves the state untouched.  `poll` is the result
of a vendor poll during this tick (both reads see the same snapshot or the
same communication failure). -/
def ontimer (s : TimerState) (ascom_handle : Bool) (resp : AscomResponse)
    (poll : Except String PWMount) : Except String TimerState := do
  let st1 ← poll
  let conn := connectedGet s.powered ascom_handle resp st1
  if !conn then return s
  let status ← poll
  let s1 :=
    if s.findingHome then
      if !status.is_slewing then
        let sa := { s with findingHome := false }
        if sa.startingUp then { sa with startingUp := false } else sa
      else s
    else s
  let s2 :=
    if s1.parking then
      if !status.is_slewing then
        let sb := { s1 with parking := false }
        if sb.shuttingDown then
          { sb with shuttingDown := false, was_shut_down := true, powered := false }
        else sb
      else s1
    else s1
  return s2

/-- The outcome of `start_tracking`/`stop_tracking`: whether the tracking
command was issued, and `some k` when the call returned after the `k`-th
vendor poll (with `some 0` for the immediate not-connected return), `none`
when it was still inside the busy-wait loop after `fuel` polls. -/
structure TrackResult where
  commanded : Bool
  returned : Option Nat
deriving DecidableEq, Repr

/-- The busy-wait loop shared by `start_tracking` and `stop_tracking`:
starting with the `i`-th poll, sleep-and-poll until a poll reports
`is_tracking = desired`; `fuel` bounds how many polls we unroll (the source
loop has no bound — `none` means the loop had not exited yet). -/
def trackWait (desired : Bool) (polls : Nat → Bool) : Nat → Nat → Option Nat
  | 0, _ => none
  | fuel + 1, i => if polls i = desired then some i else trackWait desired polls fuel (i + 1)

/-- Embeds `Mount.start_tracking` (mount.py lines 235-249): returns at once
without commanding when not connected; otherwise issues
`mount_tracking_on`, sleeps, and polls (`polls 1, polls 2, ...` give the
successive `st.mount.is_tracking` readings) until a poll reports tracking. -/
def start_tracking (connected : Bool) (polls : Nat → Bool) (fuel : Nat) : TrackResult :=
  if !connected then { commanded := false, returned := some 0 }
  else { commanded := true, returned := trackWait true polls fuel 1 }

/-- Embeds `Mount.stop_tracking` (mount.py lines 251-265): symmetric, waits
until a poll reports not tracking. -/
def stop_tracking (connected : Bool) (polls : Nat → Bool) (fuel : Nat) : TrackResult :=
  if !connected then { commanded := false, returned := some 0 }
  else { commanded := true, returned := trackWait false polls fuel 1 }

end Mount

/-! ## src/focuser.py: the Focuser (claims C6, C9) -/

namespace Focuser

/-- Everything `Focuser.why_not_operational` reads (focuser.py lines
277-293): power, the sticky `was_shut_down` flag, `self.detected` (a vendor
poll of `st.focuser.exists`), and the vendor snapshot taken inside the
`else` branch (`exists`, `is_connected`). -/
structure OperEnv where
  power_on : Bool
  was_shut_down : Bool
  detected : Bool
  focuser_exists : Bool
  focuser_is_connected : Bool
deriving DecidableEq, Repr

/-- Embeds `Focuser.why_not_operational` (focuser.py lines 277-293): not
powered short-circuits everything; otherwise `shut down` and
`not detected` are appended by independent `if`s (both can appear), and
only a detected focuser is probed for the PWI4 sub-reasons. -/
def why_not_operational (e : OperEnv) : List String :=
  if !e.power_on then ["focuser: not powered"]
  else
    (if e.was_shut_down then ["focuser: shut down"] else [])
    ++ (if !e.detected then ["focuser: not detected"]
        else
          if !e.focuser_exists then ["focuser: (PWI4) - does not exist"]
          else if !e.focuser_is_connected then ["focuser: (PWI4) - not connected"]
          else [])

/-- The focuser state mutated by `Focuser.ontimer`: the `Moving` activity
bit and the target position (`None` when no goto is pending). -/
structure TimerState where
  moving : Bool
  target : Option Int
deriving DecidableEq, Repr

/-- Embeds `Focuser.ontimer` (focuser.py lines 238-243): when `Moving` is
active it reads `self.position` (a vendor poll, which may raise and then
propagates — there is no handler) and ends `Moving` when the position
equals the target; when `Moving` is inactive the Python `and`
short-circuits, no poll happens, and the tick cannot fail. -/
def ontimer (s : TimerState) (poll : Except String Int) : Except String TimerState := do
  if s.moving then
    let pos ← poll
    if some pos = s.target then
      return { s with moving := false, target := none }
    else return s
  else return s

end Focuser

/-! ## Helper lemmas about the stage embedding -/

/-- A disconnected stage's reconciliation tick is the identity (stage.py
lines 212-213). -/
theorem ontimer_of_not_connected (s : StageM) (t : Nat) (h : s._connected = false) :
    Stage.ontimer s t = s := by
  simp [Stage.ontimer, h]

/-- Ticks never change a disconnected stage, over any tick sequence. -/
theorem foldl_ontimer_of_not_connected (ts : List Nat) (s : StageM)
    (h : s._connected = false) : ts.foldl Stage.ontimer s = s := by
  induction ts with
  | nil => rfl
  | cons t ts ih => simpa [ontimer_of_not_connected s t h] using ih

@[simp] theorem setPosition_powered (s : StageM) (v : Int) :
    (Stage.setPosition s v).powered = s.powered := by
  unfold Stage.setPosition; split <;> rfl

@[simp] theorem setPosition_conn (s : StageM) (v : Int) :
    (Stage.setPosition s v)._connected = s._connected := by
  unfold Stage.setPosition; split <;> rfl

@[simp] theorem setConnected_powered (s : StageM) (v : Bool) :
    (Stage.setConnected s v).powered = s.powered := by
  unfold Stage.setConnected
  split
  · rfl
  · split <;> simp

theorem setConnected_conn (s : StageM) (v : Bool) :
    (Stage.setConnected s v)._connected = if s.powered then v else s._connected := by
  unfold Stage.setConnected
  cases hp : s.powered
  · simp [hp]
  · cases v <;> simp [hp, Stage.setPosition]

@[simp] theorem connect_powered (s : StageM) :
    (Stage.connect s).powered = s.powered := by
  unfold Stage.connect; split <;> simp

@[simp] theorem disconnect_powered (s : StageM) :
    (Stage.disconnect s).powered = s.powered := by
  unfold Stage.disconnect; split <;> simp

@[simp] theorem move_powered (s : StageM) (now : Nat) (t : StageState) :
    (Stage.move s now t).powered = s.powered := by
  unfold Stage.move
  split
  · rfl
  · split <;> rfl

@[simp] theorem move_conn (s : StageM) (now : Nat) (t : StageState) :
    (Stage.move s now t)._connected = s._connected := by
  unfold Stage.move
  split
  · rfl
  · split <;> rfl

@[simp] theorem ontimerInterp_powered (s : StageM) (dt : Int) :
    (Stage.ontimerInterp s dt).1.powered = s.powered := by
  simp only [Stage.ontimerInterp]
  split_ifs <;> rfl

@[simp] theorem ontimerInterp_conn (s : StageM) (dt : Int) :
    (Stage.ontimerInterp s dt).1._connected = s._connected := by
  simp only [Stage.ontimerInterp]
  split_ifs <;> rfl

@[simp] theorem ontimerEnds_powered (s : StageM) :
    (Stage.ontimerEnds s).powered = s.powered := by
  simp only [Stage.ontimerEnds]
  split_ifs <;> rfl

@[simp] theorem ontimerEnds_conn (s : StageM) :
    (Stage.ontimerEnds s)._connected = s._connected := by
  simp only [Stage.ontimerEnds]
  split_ifs <;> rfl

@[simp] theorem ontimer_powered (s : StageM) (now : Nat) :
    (Stage.ontimer s now).powered = s.powered := by
  unfold Stage.ontimer
  split
  · rfl
  · split
    · simp
    · rfl

@[simp] theorem ontimer_conn (s : StageM) (now : Nat) :
    (Stage.ontimer s now)._connected = s._connected := by
  unfold Stage.ontimer
  split
  · rfl
  · split
    · simp
    · rfl

theorem startup_powered (s : StageM) (now : Nat) :
    (Stage.startup s now).powered = true := by
  simp only [Stage.startup]
  split_ifs <;> simp_all

theorem shutdown_conn (s : StageM) (now : Nat) (hp : s.powered = true) :
    (Stage.shutdown s now)._connected = false := by
  simp only [Stage.shutdown, Stage.disconnect]
  split_ifs <;> simp_all [setConnected_conn]

theorem shutdown_of_not_powered (s : StageM) (now : Nat) (hp : s.powered = false) :
    Stage.shutdown s now = s := by
  unfold Stage.shutdown
  simp [hp]

/-- The key safety property of a single stage operation: it preserves
`connected → powered`. -/
theorem stageOp_preserves_conn_imp_pow (s : StageM) (op : StageOp)
    (h : s._connected = true → s.powered = true) :
    (StageOp.apply s op)._connected = true → (StageOp.apply s op).powered = true := by
  cases op with
  | connect =>
      intro hc
      simp only [StageOp.apply] at hc ⊢
      cases hp : s.powered
      · unfold Stage.connect at hc
        rw [hp] at hc
        simp at hc
        exact absurd (h hc) (by simp [hp])
      · simp [hp]
  | disconnect =>
      intro hc
      simp only [StageOp.apply] at hc ⊢
      cases hp : s.powered
      · unfold Stage.disconnect at hc
        rw [hp] at hc
        simp at hc
        exact absurd (h hc) (by simp [hp])
      · simp [hp]
  | startup now =>
      intro _
      simp only [StageOp.apply]
      exact startup_powered s now
  | shutdown now =>
      intro hc
      simp only [StageOp.apply] at hc ⊢
      cases hp : s.powered
      · rw [shutdown_of_not_powered s now hp] at hc ⊢
        exact h hc
      · rw [shutdown_conn s now hp] at hc
        simp at hc
  | move now target =>
      intro hc
      simp only [StageOp.apply, move_conn] at hc
      simp only [StageOp.apply, move_powered]
      exact h hc
  | tick now =>
      intro hc
      simp only [StageOp.apply, ontimer_conn] at hc
      simp only [StageOp.apply, ontimer_powered]
      exact h hc

/-- The invariant `connected → powered` is preserved by any operation
sequence. -/
theorem runStage_conn_imp_pow (ops : List StageOp) (s : StageM)
    (h : s._connected = true → s.powered = true) :
    (runStage s ops)._connected = true → (runStage s ops).powered = true := by
  induction ops generalizing s with
  | nil => exact h
  | cons op ops ih =>
      exact ih (StageOp.apply s op) (stageOp_preserves_conn_imp_pow s op h)

@[simp] theorem setPosition_state (s : StageM) (v : Int) :
    (Stage.setPosition s v).state = s.state := by
  unfold Stage.setPosition; split <;> rfl

@[simp] theorem setPosition_acts (s : StageM) (v : Int) :
    (Stage.setPosition s v).acts = s.acts := by
  unfold Stage.setPosition; split <;> rfl

theorem setPosition_position_of_conn (s : StageM) (v : Int)
    (h : s._connected = true) : (Stage.setPosition s v)._position = v := by
  simp [Stage.setPosition, h]

@[simp] theorem ontimerEnds_position (s : StageM) :
    (Stage.ontimerEnds s)._position = s._position := by
  simp only [Stage.ontimerEnds]
  split_ifs <;> rfl

@[simp] theorem ontimerEnds_state (s : StageM) :
    (Stage.ontimerEnds s).state = s.state := by
  simp only [Stage.ontimerEnds]
  split_ifs <;> rfl

@[simp] theorem ontimerEnds_moving (s : StageM) :
    (Stage.ontimerEnds s).acts.moving = s.acts.moving := by
  simp only [Stage.ontimerEnds]
  split_ifs <;> rfl

/-- While connected with `Moving` active, a tick is interpolation followed
by the position write and the activity epilogue. -/
theorem ontimer_eq_of_moving (s : StageM) (now : Nat)
    (hc : s._connected = true) (hm : s.acts.moving = true) :
    Stage.ontimer s now =
      Stage.ontimerEnds
        (Stage.setPosition (Stage.ontimerInterp s (Int.ofNat (now - s.motion_start_time))).1
          (Stage.ontimerInterp s (Int.ofNat (now - s.motion_start_time))).2) := by
  unfold Stage.ontimer
  simp [hc, StageActs.test, hm]

/-- The `MovingOut` interpolation branch when the computed position strictly
exceeds the clamp. -/
theorem ontimerInterp_out_clamp (s : StageM) (dt : Int)
    (hst : s.state = StageState.MovingOut)
    (hgt : Stage.TICKS_WHEN_OUT < s.ticks_at_start + dt * Stage.TICKS_PER_SECOND) :
    Stage.ontimerInterp s dt =
      ({ s with state := StageState.Out, acts := s.acts.clear .Moving },
        Stage.TICKS_WHEN_OUT) := by
  simp only [Stage.ontimerInterp, hst, if_pos]
  rw [if_pos hgt]

/-- The `MovingOut` interpolation branch when the computed position has not
yet strictly exceeded the clamp (no transition, even at exactly the clamp). -/
theorem ontimerInterp_out_noclamp (s : StageM) (dt : Int)
    (hst : s.state = StageState.MovingOut)
    (hle : s.ticks_at_start + dt * Stage.TICKS_PER_SECOND ≤ Stage.TICKS_WHEN_OUT) :
    Stage.ontimerInterp s dt = (s, s.ticks_at_start + dt * Stage.TICKS_PER_SECOND) := by
  simp only [Stage.ontimerInterp, hst, if_pos]
  rw [if_neg (by omega)]

/-- The `MovingIn` interpolation branch when the computed position reached
the clamp (less-or-equal test). -/
theorem ontimerInterp_in_clamp (s : StageM) (dt : Int)
    (hst : s.state = StageState.MovingIn)
    (hle : s.ticks_at_start - dt * Stage.TICKS_PER_SECOND ≤ Stage.TICKS_WHEN_IN) :
    Stage.ontimerInterp s dt =
      ({ s with state := StageState.In, acts := s.acts.clear .Moving },
        Stage.TICKS_WHEN_IN) := by
  have hne : ¬(s.state = StageState.MovingOut) := by rw [hst]; intro h; cases h
  simp only [Stage.ontimerInterp, if_neg hne]
  rw [if_pos hle]

/-- The `MovingIn` interpolation branch before the clamp. -/
theorem ontimerInterp_in_noclamp (s : StageM) (dt : Int)
    (hst : s.state = StageState.MovingIn)
    (hgt : Stage.TICKS_WHEN_IN < s.ticks_at_start - dt * Stage.TICKS_PER_SECOND) :
    Stage.ontimerInterp s dt = (s, s.ticks_at_start - dt * Stage.TICKS_PER_SECOND) := by
  have hne : ¬(s.state = StageState.MovingOut) := by rw [hst]; intro h; cases h
  simp only [Stage.ontimerInterp, if_neg hne]
  rw [if_neg (by omega)]

/-! ## Helper lemmas about the mount busy-wait loop -/

/-- If no poll ever reports the desired tracking state, the busy-wait loop
never exits, whatever bound we unroll it to. -/
theorem trackWait_never (desired : Bool) (polls : Nat → Bool)
    (h : ∀ i, polls i ≠ desired) :
    ∀ (fuel i : Nat), Mount.trackWait desired polls fuel i = none := by
  intro fuel
  induction fuel with
  | zero => intro i; rfl
  | succ f ih =>
      intro i
      simp only [Mount.trackWait]
      rw [if_neg (h i)]
      exact ih (i + 1)

/-- If the busy-wait loop exits at poll `k`, then poll `k` reported the
desired state and no earlier poll (from the start index) did. -/
theorem trackWait_exit (desired : Bool) (polls : Nat → Bool) :
    ∀ (fuel i k : Nat), Mount.trackWait desired polls fuel i = some k →
      polls k = desired ∧ i ≤ k ∧ ∀ j, i ≤ j → j < k → polls j ≠ desired := by
  intro fuel
  induction fuel with
  | zero => intro i k h; exact absurd h (by simp [Mount.trackWait])
  | succ f ih =>
      intro i k h
      by_cases hp : polls i = desired
      · simp only [Mount.trackWait] at h
        rw [if_pos hp] at h
        obtain rfl : i = k := by injection h
        refine ⟨hp, Nat.le_refl i, ?_⟩
        intro j hj1 hj2
        exact absurd (Nat.lt_of_le_of_lt hj1 hj2) (Nat.lt_irrefl i)
      · simp only [Mount.trackWait] at h
        rw [if_neg hp] at h
        obtain ⟨h1, h2, h3⟩ := ih (i + 1) k h
        refine ⟨h1, Nat.le_trans (Nat.le_succ i) h2, ?_⟩
        intro j hj1 hj2
        rcases Nat.eq_or_lt_of_le hj1 with heq | hlt
        · rw [← heq]; exact hp
        · exact h3 j hlt hj2

/-! ## Claim theorems -/

/-- Claim C1 (code bug): with `u.power` present and its status operational
but the Mount power socket Off, `UnitStatus.__init__` raises
`AttributeError` while computing `is_operational` — the `mount` attribute
was never assigned and the class body carries only annotations — instead of
producing a composite status with the mount document omitted and
`is_operational = False` as the claim states. -/
theorem claim_C1_unitstatus_attribute_error :
    UnitStatus.init
        { cameraSocketOn := true, stageSocketOn := true, coverSocketOn := true
          mountSocketOn := false, powerOperational := true
          cameraOperational := true, stageOperational := true
          coverOperational := true, mountOperational := true
          guiding := false, autofocusing := false, unitConnected := true }
      = Except.error "AttributeError" := rfl

/-- Claim C2 (code bug): connecting a powered, disconnected stage sets the
state to `In` and `_connected` to true, but the stored position stays 0
instead of becoming `TICKS_WHEN_IN = 100`: the write inside the `connected`
setter goes through the `position` setter while `_connected` is still
false, so it is silently dropped. -/
theorem claim_C2_connect_drops_position :
    (Stage.connect ⟨true, false, StageState.Idle, 0, ⟨false, false, false⟩, 0, 0⟩).state
        = StageState.In ∧
    (Stage.connect ⟨true, false, StageState.Idle, 0, ⟨false, false, false⟩, 0, 0⟩)._connected
        = true ∧
    (Stage.connect ⟨true, false, StageState.Idle, 0, ⟨false, false, false⟩, 0, 0⟩)._position
        = 0 ∧
    (Stage.connect ⟨true, false, StageState.Idle, 0, ⟨false, false, false⟩, 0, 0⟩)._position
        ≠ Stage.TICKS_WHEN_IN := by
  refine ⟨rfl, rfl, rfl, ?_⟩
  decide

/-- Claim C3 (code bug): `shutdown()` on a powered, connected stage in
state `In` starts `ShuttingDown` and `Moving`, but then immediately
disconnects the stage, so every subsequent reconciliation tick returns at
the not-connected guard: both flags remain set after any sequence of
ticks, never cleared. -/
theorem claim_C3_shutdown_flags_stuck (ts : List Nat) :
    ((ts.foldl Stage.ontimer
        (Stage.shutdown ⟨true, true, StageState.In, 100, ⟨false, false, false⟩, 100, 0⟩ 0)).acts.moving
      = true) ∧
    ((ts.foldl Stage.ontimer
        (Stage.shutdown ⟨true, true, StageState.In, 100, ⟨false, false, false⟩, 100, 0⟩ 0)).acts.shuttingDown
      = true) := by
  have h : Stage.shutdown ⟨true, true, StageState.In, 100, ⟨false, false, false⟩, 100, 0⟩ 0 =
      ⟨false, false, StageState.MovingOut, 100, ⟨true, false, true⟩, 100, 0⟩ := by rfl
  rw [h, foldl_ontimer_of_not_connected ts _ rfl]
  exact ⟨rfl, rfl⟩

/-- Claim C4 (amended): during a connected, Moving tick, in state
`MovingOut` the new position is `ticks_at_start + elapsed * TICKS_PER_SECOND`
clamped at `TICKS_WHEN_OUT`, but the transition to `Out` (ending `Moving`)
fires only when the computed position STRICTLY exceeds the clamp — reaching
it exactly does not transition; in state `MovingIn` the transition to `In`
fires when the computed position is less than or equal to `TICKS_WHEN_IN`.
The claim's concrete scenario holds: from position 100 moving out, after 5
seconds the position is 5100; after 30 seconds it is clamped to 30000, the
state is `Out` and `Moving` is cleared. -/
theorem claim_C4_tick_interpolation :
    (∀ (s : StageM) (now : Nat),
      s._connected = true → s.acts.moving = true → s.state = StageState.MovingOut →
      (Stage.TICKS_WHEN_OUT <
          s.ticks_at_start + Int.ofNat (now - s.motion_start_time) * Stage.TICKS_PER_SECOND →
        (Stage.ontimer s now)._position = Stage.TICKS_WHEN_OUT ∧
        (Stage.ontimer s now).state = StageState.Out ∧
        (Stage.ontimer s now).acts.moving = false) ∧
      (s.ticks_at_start + Int.ofNat (now - s.motion_start_time) * Stage.TICKS_PER_SECOND ≤
          Stage.TICKS_WHEN_OUT →
        (Stage.ontimer s now)._position =
          s.ticks_at_start + Int.ofNat (now - s.motion_start_time) * Stage.TICKS_PER_SECOND ∧
        (Stage.ontimer s now).state = StageState.MovingOut ∧
        (Stage.ontimer s now).acts.moving = true)) ∧
    (∀ (s : StageM) (now : Nat),
      s._connected = true → s.acts.moving = true → s.state = StageState.MovingIn →
      (s.ticks_at_start - Int.ofNat (now - s.motion_start_time) * Stage.TICKS_PER_SECOND ≤
          Stage.TICKS_WHEN_IN →
        (Stage.ontimer s now)._position = Stage.TICKS_WHEN_IN ∧
        (Stage.ontimer s now).state = StageState.In ∧
        (Stage.ontimer s now).acts.moving = false) ∧
      (Stage.TICKS_WHEN_IN <
          s.ticks_at_start - Int.ofNat (now - s.motion_start_time) * Stage.TICKS_PER_SECOND →
        (Stage.ontimer s now)._position =
          s.ticks_at_start - Int.ofNat (now - s.motion_start_time) * Stage.TICKS_PER_SECOND ∧
        (Stage.ontimer s now).state = StageState.MovingIn ∧
        (Stage.ontimer s now).acts.moving = true)) ∧
    ((Stage.ontimer ⟨true, true, StageState.MovingOut, 100, ⟨true, false, false⟩, 100, 0⟩ 5)._position
        = 5100 ∧
     (Stage.ontimer ⟨true, true, StageState.MovingOut, 100, ⟨true, false, false⟩, 100, 0⟩ 30)._position
        = 30000 ∧
     (Stage.ontimer ⟨true, true, StageState.MovingOut, 100, ⟨true, false, false⟩, 100, 0⟩ 30).state
        = StageState.Out ∧
     (Stage.ontimer ⟨true, true, StageState.MovingOut, 100, ⟨true, false, false⟩, 100, 0⟩ 30).acts.moving
        = false) := by
  refine ⟨?_, ?_, by decide, by decide, by decide, by decide⟩
  · intro s now hc hm hst
    constructor
    · intro hgt
      rw [ontimer_eq_of_moving s now hc hm,
        ontimerInterp_out_clamp s _ hst hgt]
      refine ⟨?_, by simp, by simp [StageActs.clear]⟩
      simp only [ontimerEnds_position]
      exact setPosition_position_of_conn _ _ (by simpa using hc)
    · intro hle
      rw [ontimer_eq_of_moving s now hc hm,
        ontimerInterp_out_noclamp s _ hst hle]
      refine ⟨?_, by simp [hst], by simp [hm]⟩
      simp only [ontimerEnds_position]
      exact setPosition_position_of_conn _ _ hc
  · intro s now hc hm hst
    constructor
    · intro hle
      rw [ontimer_eq_of_moving s now hc hm,
        ontimerInterp_in_clamp s _ hst hle]
      refine ⟨?_, by simp, by simp [StageActs.clear]⟩
      simp only [ontimerEnds_position]
      exact setPosition_position_of_conn _ _ (by simpa using hc)
    · intro hgt
      rw [ontimer_eq_of_moving s now hc hm,
        ontimerInterp_in_noclamp s _ hst hgt]
      refine ⟨?_, by simp [hst], by simp [hm]⟩
      simp only [ontimerEnds_position]
      exact setPosition_position_of_conn _ _ hc

/-- Claim C4 counterexample: moving out from `ticks_at_start = 0`, after 30
seconds the computed position is exactly 30000 — it reaches the clamp — yet
the state stays `MovingOut` and `Moving` stays active, because the source
tests `pos > TICKS_WHEN_OUT` strictly. -/
theorem claim_C4_counterexample :
    (Stage.ontimer ⟨true, true, StageState.MovingOut, 0, ⟨true, false, false⟩, 0, 0⟩ 30)._position
        = Stage.TICKS_WHEN_OUT ∧
    (Stage.ontimer ⟨true, true, StageState.MovingOut, 0, ⟨true, false, false⟩, 0, 0⟩ 30).state
        = StageState.MovingOut ∧
    (Stage.ontimer ⟨true, true, StageState.MovingOut, 0, ⟨true, false, false⟩, 0, 0⟩ 30).acts.moving
        = true := ⟨rfl, rfl, rfl⟩

/-- Witness for C4: a concrete clamped tick (position 100, 40 seconds out). -/
theorem claim_C4_witness :
    (Stage.ontimer ⟨true, true, StageState.MovingOut, 100, ⟨true, false, false⟩, 100, 0⟩ 40)._position
        = Stage.TICKS_WHEN_OUT :=
  ((claim_C4_tick_interpolation.1
      ⟨true, true, StageState.MovingOut, 100, ⟨true, false, false⟩, 100, 0⟩ 40
      rfl rfl rfl).1 (by decide)).1

/-- Claim C5 (amended): for the stage, in every state reachable from the
initial state by the stage's own operations, power Off implies that reading
`connected` gives false — `_connected` can only have been set while the
socket was On, and `shutdown` disconnects before powering off, so
`startup()` can never leave `connected` true with power Off.  The mount is
excluded: its `connected` getter is computed from the vendor/ASCOM snapshot
and never consults the power socket (see the counterexample). -/
theorem claim_C5_stage_power_off_not_connected (p0 : Bool) (ops : List StageOp)
    (h : (runStage (stageInit p0) ops).powered = false) :
    (runStage (stageInit p0) ops)._connected = false := by
  have hinv := runStage_conn_imp_pow ops (stageInit p0)
    (fun hcc => by simp [stageInit] at hcc)
  cases hx : (runStage (stageInit p0) ops)._connected
  · rfl
  · have hpw := hinv hx
    rw [h] at hpw
    exact absurd hpw (by simp)

/-- Claim C5 counterexample: the mount `connected` getter returns true even
though the power reading is Off, because the source never consults the
power socket — `connected` is the conjunction of the ASCOM handle, the
ASCOM `Connected` response and the vendor connection/axis flags only. -/
theorem claim_C5_counterexample :
    Mount.connectedGet false true ⟨true, true⟩ ⟨true, true, true, false, false⟩ = true := rfl

/-- Witness for C5: startup then shutdown from a cold stage ends with power
Off and `connected` false. -/
theorem claim_C5_witness :
    (runStage (stageInit false) [StageOp.startup 0, StageOp.shutdown 1])._connected = false :=
  claim_C5_stage_power_off_not_connected false [StageOp.startup 0, StageOp.shutdown 1] (by decide)

/-- Claim C6 (amended): per-device reason order.  The focuser follows the
claimed order — not powered short-circuits everything and is the only
reason listed; otherwise `shut down` is appended before `not detected`,
both when applicable, before vendor sub-reasons.  The mount instead checks
`not detected` BEFORE `shut down` in an exclusive `elif` chain, so a
powered, undetected, shut-down mount reports only `not detected`.  The
stage's power-off reasons list is `['not-powered', 'not-connected']`, not
only the not-powered reason. -/
theorem claim_C6_reason_order_per_device :
    (∀ e : Mount.OperEnv, e.power_on = false →
        Mount.why_not_operational e = ["mount: not powered"]) ∧
    (∀ e : Mount.OperEnv, e.power_on = true → e.detected = false →
        Mount.why_not_operational e = ["mount: not detected"]) ∧
    (∀ e : Focuser.OperEnv, e.power_on = false →
        Focuser.why_not_operational e = ["focuser: not powered"]) ∧
    (∀ e : Focuser.OperEnv, e.power_on = true → e.was_shut_down = true → e.detected = false →
        Focuser.why_not_operational e = ["focuser: shut down", "focuser: not detected"]) ∧
    (∀ s : StageM, s.powered = false →
        Stage.statusReasons s = ["not-powered", "not-connected"]) := by
  refine ⟨?_, ?_, ?_, ?_, ?_⟩ <;> intros <;>
    simp_all [Mount.why_not_operational, Focuser.why_not_operational, Stage.statusReasons]

/-- Claim C6 counterexample: a powered, undetected mount with the
`was_shut_down` flag set reports only `not detected` — the applicable
`shut down` reason is not appended, and the checking order is
powered, detected, shut-down rather than the claimed powered, shut-down,
detected; and an unpowered stage reports two reasons, not only the
not-powered one. -/
theorem claim_C6_counterexample :
    Mount.why_not_operational
        { power_on := true, detected := false, was_shut_down := true
          ascom_handle := true, resp := ⟨true, true⟩
          pw_is_connected := false, axis0_enabled := false, axis1_enabled := false }
      = ["mount: not detected"] ∧
    Stage.statusReasons ⟨false, false, StageState.Idle, 0, ⟨false, false, false⟩, 0, 0⟩
      = ["not-powered", "not-connected"] := ⟨rfl, rfl⟩

/-- Witness for C6: an unpowered mount lists exactly the not-powered
reason. -/
theorem claim_C6_witness :
    Mount.why_not_operational
        { power_on := false, detected := true, was_shut_down := false
          ascom_handle := true, resp := ⟨true, true⟩
          pw_is_connected := true, axis0_enabled := true, axis1_enabled := true }
      = ["mount: not powered"] :=
  claim_C6_reason_order_per_device.1
    { power_on := false, detected := true, was_shut_down := false
      ascom_handle := true, resp := ⟨true, true⟩
      pw_is_connected := true, axis0_enabled := true, axis1_enabled := true } rfl

/-- Claim C7 (amended): a second `startup()` at the same instant changes
nothing observable — activity bits are a set, so re-setting them is
idempotent, and the re-executed `move` rewrites `ticks_at_start` and
`motion_start_time` with the very same values.  The second call does,
however, re-execute `start_activity` and `move` whenever the state is not
`Science`, so as soon as any time has elapsed between the calls it resets
`motion_start_time` of the in-flight move (see the counterexample). -/
theorem claim_C7_startup_idempotent_same_instant (s : StageM) (now : Nat) :
    Stage.startup (Stage.startup s now) now = Stage.startup s now := by
  obtain ⟨pw, cn, st, pos, ⟨mv, su, sd⟩, tas, mst⟩ := s
  cases pw <;> cases cn <;> cases st <;>
    simp [Stage.startup, Stage.connect, Stage.setConnected, Stage.setPosition,
      Stage.move, StageActs.set, StageActs.test, StageState.Science]

/-- Claim C7 counterexample: with an in-flight move started by a first
`startup()` at time 10, a second `startup()` at time 11 rewrites
`motion_start_time` from 10 to 11 — the motion command sequence is
re-issued and the in-flight move's clock is reset, contradicting the
claim. -/
theorem claim_C7_counterexample :
    (Stage.startup ⟨true, true, StageState.Out, 5000, ⟨false, false, false⟩, 0, 0⟩ 10).acts.moving
        = true ∧
    (Stage.startup ⟨true, true, StageState.Out, 5000, ⟨false, false, false⟩, 0, 0⟩ 10).motion_start_time
        = 10 ∧
    (Stage.startup
        (Stage.startup ⟨true, true, StageState.Out, 5000, ⟨false, false, false⟩, 0, 0⟩ 10)
        11).motion_start_time
        = 11 := ⟨rfl, rfl, rfl⟩

/-- Claim C8: `start_tracking` on a connected mount issues the tracking
command and then busy-waits: it returns after poll `k` only if poll `k`
reported tracking and no earlier poll did; if no poll ever reports
tracking, the loop never exits within any bound — there is no timeout.
Symmetrically `stop_tracking` waits for a poll reporting not-tracking.  A
disconnected mount returns immediately without commanding. -/
theorem claim_C8_tracking_busy_wait :
    (∀ (polls : Nat → Bool) (fuel : Nat),
        (Mount.start_tracking true polls fuel).commanded = true) ∧
    (∀ (polls : Nat → Bool) (fuel k : Nat),
        (Mount.start_tracking true polls fuel).returned = some k →
        polls k = true ∧ 1 ≤ k ∧ ∀ j, 1 ≤ j → j < k → polls j = false) ∧
    (∀ polls : Nat → Bool, (∀ i, polls i = false) →
        ∀ fuel, (Mount.start_tracking true polls fuel).returned = none) ∧
    (∀ (polls : Nat → Bool) (fuel k : Nat),
        (Mount.stop_tracking true polls fuel).returned = some k →
        polls k = false ∧ 1 ≤ k ∧ ∀ j, 1 ≤ j → j < k → polls j = true) ∧
    (∀ polls : Nat → Bool, (∀ i, polls i = true) →
        ∀ fuel, (Mount.stop_tracking true polls fuel).returned = none) ∧
    (∀ (polls : Nat → Bool) (fuel : Nat),
        Mount.start_tracking false polls fuel
          = { commanded := false, returned := some 0 }) := by
  refine ⟨?_, ?_, ?_, ?_, ?_, ?_⟩
  · intro polls fuel; rfl
  · intro polls fuel k h
    simp only [Mount.start_tracking, Bool.not_true, Bool.false_eq_true, if_false] at h
    obtain ⟨h1, h2, h3⟩ := trackWait_exit true polls fuel 1 k h
    refine ⟨h1, h2, ?_⟩
    intro j hj1 hj2
    cases hb : polls j
    · rfl
    · exact absurd hb (h3 j hj1 hj2)
  · intro polls h fuel
    simp only [Mount.start_tracking, Bool.not_true, Bool.false_eq_true, if_false]
    exact trackWait_never true polls (fun i => by simp [h i]) fuel 1
  · intro polls fuel k h
    simp only [Mount.stop_tracking, Bool.not_true, Bool.false_eq_true, if_false] at h
    obtain ⟨h1, h2, h3⟩ := trackWait_exit false polls fuel 1 k h
    refine ⟨h1, h2, ?_⟩
    intro j hj1 hj2
    cases hb : polls j
    · exact absurd hb (h3 j hj1 hj2)
    · rfl
  · intro polls h fuel
    simp only [Mount.stop_tracking, Bool.not_true, Bool.false_eq_true, if_false]
    exact trackWait_never false polls (fun i => by simp [h i]) fuel 1
  · intro polls fuel; rfl

/-- Witness for C8: with polls reporting tracking from the third one on,
the call returns after poll 3, and the command was issued. -/
theorem claim_C8_witness :
    ((fun i => decide (3 ≤ i)) 3 = true) ∧
    (Mount.start_tracking true (fun i => decide (3 ≤ i)) 5).commanded = true :=
  ⟨(claim_C8_tracking_busy_wait.2.1 (fun i => decide (3 ≤ i)) 5 3 (by decide)).1,
   claim_C8_tracking_busy_wait.1 (fun i => decide (3 ≤ i)) 5⟩

/-- Claim C9 (amended): a vendor poll failure during a reconciliation tick
occurs before any mutation, so activities, state and position keep their
previous values — but the exception PROPAGATES out of `ontimer`: neither
`Mount.ontimer` nor `Focuser.ontimer` has a handler.  A focuser tick with
no active move never polls and cannot fail.  (Whether the poller thread
survives is decided by `utils.RepeatTimer`, which is not under src/.) -/
theorem claim_C9_tick_error_propagates :
    (∀ (s : Mount.TimerState) (a : Bool) (r : AscomResponse) (e : String),
        Mount.ontimer s a r (Except.error e) = Except.error e) ∧
    (∀ (s : Focuser.TimerState) (e : String), s.moving = true →
        Focuser.ontimer s (Except.error e) = Except.error e) ∧
    (∀ (s : Focuser.TimerState) (e : String), s.moving = false →
        Focuser.ontimer s (Except.error e) = Except.ok s) := by
  refine ⟨?_, ?_, ?_⟩
  · intro s a r e; rfl
  · intro s e h
    simp only [Focuser.ontimer, h]
    rfl
  · intro s e h
    simp only [Focuser.ontimer, h]
    rfl

/-- Claim C9 counterexample: a concrete mount tick in which the vendor poll
raises a communication error: the tick's result is that very exception —
it is not swallowed, contradicting the claim that the exception does not
propagate out of the tick. -/
theorem claim_C9_counterexample :
    Mount.ontimer ⟨true, true, false, false, false, true⟩ true ⟨true, true⟩
        (Except.error "communication error")
      = Except.error "communication error" := rfl

/-- Witness for C9: a moving focuser tick propagates the poll failure. -/
theorem claim_C9_witness :
    Focuser.ontimer ⟨true, some 7⟩ (Except.error "HardwareUnreachable")
      = Except.error "HardwareUnreachable" :=
  claim_C9_tick_error_propagates.2.1 ⟨true, some 7⟩ "HardwareUnreachable" rfl

/-- Claim C10: every write through the Stage `position` setter is silently
dropped while `_connected` is false; in particular the write performed
inside the `connected` setter happens before `_connected` becomes true, so
connecting a disconnected stage leaves the stored position unchanged. -/
theorem claim_C10_position_write_ignored :
    (∀ (s : StageM) (v : Int), s._connected = false →
        (Stage.setPosition s v)._position = s._position) ∧
    (∀ s : StageM, s._connected = false →
        (Stage.setConnected s true)._position = s._position) := by
  constructor
  · intro s v h
    simp [Stage.setPosition, h]
  · intro s h
    unfold Stage.setConnected
    cases hp : s.powered
    · simp
    · simp [Stage.setPosition, h]

/-- Witness for C10: a concrete disconnected stage at position 7 keeps
position 7 through both a raw position write and a connect. -/
theorem claim_C10_witness :
    (Stage.setPosition ⟨true, false, StageState.Idle, 7, ⟨false, false, false⟩, 0, 0⟩ 123)._position
        = 7 ∧
    (Stage.setConnected ⟨true, false, StageState.Idle, 7, ⟨false, false, false⟩, 0, 0⟩ true)._position
        = 7 :=
  ⟨claim_C10_position_write_ignored.1
      ⟨true, false, StageState.Idle, 7, ⟨false, false, false⟩, 0, 0⟩ 123 rfl,
   claim_C10_position_write_ignored.2
      ⟨true, false, StageState.Idle, 7, ⟨false, false, false⟩, 0, 0⟩ rfl⟩
